import Mathlib

/-
Verification of the LEAGUE_COACH_OS classification / session-accumulation /
resilient-orchestration core.

This file gives a shallow embedding, in Lean 4, of the parts of the Python
source that the verified properties are about:

  * packages/agents/python-brain/daemon/game_state_detector.py
      (GameStateDetector, GameSession)
  * packages/agents/python-brain/daemon/live_pipeline.py
      (LiveCoachingPipeline.process_screenshot, cooldown and rejection gates)
  * packages/agents/python-brain/orchestrator/swarm.py
      (AgentCircuitBreaker)
  * packages/agents/python-brain/agents/judge.py
      (FinalJudgeValidatorAgent.validate)

Modelling conventions:
  * Python floats are modelled as exact rationals.  Every float computed by
    the embedded code is a ratio of integers compared against decimal
    constants, so rational arithmetic reproduces the source computation
    (decimal constants are written as exact fractions, e.g. 0.195 = 39/200).
  * Python division by zero would raise; the embedded code only divides by
    list lengths, and the Lean convention q / 0 = 0 is used for totality.
    Every division reached by the theorems below has a nonzero denominator.
  * An image is its dimensions plus a total pixel function returning an
    RGB triple.  PIL's Image.resize (LANCZOS resampling, an external
    library routine) is passed in as an explicit function parameter, so all
    universally quantified theorems hold for every resampler.
  * Mutation of Python objects (detector history, session aggregate,
    breaker counters) is modelled by explicit state passing.
  * async calls are modelled by their observable outcome: a wrapped call
    either succeeds with a value or fails (timeout or raised exception).
-/

/-! ## Pixel and list infrastructure -/

/-- An RGB pixel: red, green, blue channels (0..255 in real captures;
the theorems do not rely on the upper bound). -/
abbrev RGB := Nat × Nat × Nat

/-- Python `range(a, b, step)` for nonnegative bounds and positive step. -/
def pyRange (a b step : Nat) : List Nat :=
  List.range' a ((b - a + step - 1) / step) step

/-- The sample points visited by the nested loops
`for y in range(y1, y2, sy): for x in range(x1, x2, sx)` of the pixel
helpers, as (x, y) pairs in loop order. -/
def gridPts (x1 x2 y1 y2 sx sy : Nat) : List (Nat × Nat) :=
  (pyRange y1 y2 sy).flatMap (fun y => (pyRange x1 x2 sx).map (fun x => (x, y)))

/-- An immutable bitmap: dimensions plus a total pixel accessor
(`pix[x, y]` of a loaded PIL image). -/
structure Image where
  width : Nat
  height : Nat
  pixel : Nat → Nat → RGB

/-- A resampler, standing for PIL's `Image.resize((w, h), LANCZOS)`. -/
abbrev Resize := Image → Nat → Nat → Image

/-- PIL `thumb.getdata()`: all pixels in row-major order. -/
def getdata (im : Image) : List RGB :=
  (List.range im.height).flatMap (fun y => (List.range im.width).map (fun x => im.pixel x y))

/-- Python `int(q)` for the nonnegative values produced by fractional
region coordinates. -/
def ratFloorNat (q : ℚ) : Nat := (⌊q⌋).toNat

/-- Brightness of one pixel, `(r + g + b) / 3`. -/
def pixBright (c : RGB) : ℚ := ((c.1 : ℚ) + c.2.1 + c.2.2) / 3

/-- Average of a float list, `sum(vals) / len(vals) if vals else 0`. -/
def listAvg (l : List ℚ) : ℚ := if l.isEmpty then 0 else l.sum / l.length

/-! ## Game states and detection results (game_state_detector.py) -/

/-- GameState: all detectable states in a League of Legends session. -/
inductive GameState where
  | LOADING_SCREEN
  | TAB_SCOREBOARD
  | SHOP_OPEN
  | IN_GAME_LANING
  | IN_GAME_TEAMFIGHT
  | IN_GAME_OBJECTIVES
  | DEATH_SCREEN
  | POST_GAME_STATS
  | CHAMPION_SELECT
  | NOT_LOL
deriving DecidableEq, Repr

/-- GamePhase: high-level game timeline phases. -/
inductive GamePhase where
  | PRE_GAME
  | EARLY_LANING
  | MID_LANING
  | MID_GAME
  | LATE_GAME
  | POST_GAME
deriving DecidableEq, Repr

/-- GameStateResult: full detection result with confidence and context.
The source fields `lane_phase`, `regions` and `game_time_seconds` are never
written by any code path of the detector and are omitted; the `extracted`
dict is populated only by the TAB check with a single key `has_minimap`,
modelled by the field `extracted_has_minimap`. -/
structure GameStateResult where
  state : GameState
  confidence : ℚ
  phase : Option GamePhase := none
  extracted_has_minimap : Option Bool := none
  coaching_action : String := ""
  previous_state : Option GameState := none
  state_duration_seconds : ℚ := 0
deriving DecidableEq, Repr

/-- Mutable fields of a GameStateDetector instance. -/
structure DetectorState where
  state_history : List (ℚ × GameState)
  game_start_time : Option ℚ
  current_state : GameState
  last_detection_time : ℚ
deriving DecidableEq, Repr

/-- A freshly constructed GameStateDetector. -/
def detectorInit : DetectorState :=
  { state_history := []
    game_start_time := none
    current_state := GameState.NOT_LOL
    last_detection_time := 0 }

/-! ## Screen regions (fractional coordinates, class ScreenRegions) -/

def MINIMAP : ℚ × ℚ × ℚ × ℚ := (39/50, 37/50, 1, 1)
def PLAYER_HUD : ℚ × ℚ × ℚ × ℚ := (3/10, 17/20, 7/10, 1)
def HEALTH_BAR : ℚ × ℚ × ℚ × ℚ := (19/50, 9/10, 31/50, 23/25)
def TAB_OVERLAY : ℚ × ℚ × ℚ × ℚ := (1/10, 1/20, 9/10, 17/20)
def SHOP_WINDOW : ℚ × ℚ × ℚ × ℚ := (1/5, 1/20, 17/20, 9/10)
def SHOP_GOLD_DISPLAY : ℚ × ℚ × ℚ × ℚ := (18/25, 3/50, 41/50, 1/10)
def POSTGAME_HEADER : ℚ × ℚ × ℚ × ℚ := (0, 0, 1, 2/25)

/-- ScreenRegions.get_pixel_region: fractional region to pixel coordinates. -/
def get_pixel_region (r : ℚ × ℚ × ℚ × ℚ) (w h : Nat) : Nat × Nat × Nat × Nat :=
  (ratFloorNat (r.1 * w), ratFloorNat (r.2.1 * h),
   ratFloorNat (r.2.2.1 * w), ratFloorNat (r.2.2.2 * h))

/-! ## Pixel-region helper methods of GameStateDetector

The Python helpers are named `_region_avg_brightness`, `_region_dark_ratio`,
`_region_avg_saturation`, `_region_warm_ratio`, `_region_color_ratio`,
`_check_horizontal_banding`, `_check_5x2_grid`; the `..._ratio` helpers are
embedded under `..._frac` names.  Each helper clamps the region into the
thumbnail, samples on a stride grid, and returns an average or a count
divided by the number of samples (0 when the region is empty).  The
`try/except (IndexError, TypeError)` guards of the source are dead in this
model because the pixel accessor is total on RGB images. -/

/-- Sample points of a region after the source's
`x1, x2 = max(0, x1), min(tw - 1, x2)` / `y1, y2 = max(0, y1), min(th - 1, y2)`
clamping, with stride `s` in both directions. -/
def regionPts (x1 y1 x2 y2 tw th s : Nat) : List (Nat × Nat) :=
  gridPts (max 0 x1) (min (tw - 1) x2) (max 0 y1) (min (th - 1) y2) s s

/-- Detector helper `_region_avg_brightness`. -/
def region_avg_brightness (pix : Nat → Nat → RGB) (x1 y1 x2 y2 tw th : Nat) : ℚ :=
  listAvg ((regionPts x1 y1 x2 y2 tw th 2).map (fun p => pixBright (pix p.1 p.2)))

/-- Detector helper `_region_dark_ratio` (ratio of dark pixels). -/
def region_dark_frac (pix : Nat → Nat → RGB) (x1 y1 x2 y2 tw th : Nat) : ℚ :=
  let pts := regionPts x1 y1 x2 y2 tw th 2
  let dark := pts.countP (fun p =>
    let c := pix p.1 p.2
    decide (c.1 < 60 ∧ c.2.1 < 60 ∧ c.2.2 < 60))
  if pts.length = 0 then 0 else (dark : ℚ) / (pts.length : ℚ)

/-- Saturation of one pixel, `(max - min) / max` when max > 0, else 0. -/
def pixSat (c : RGB) : ℚ :=
  let mx := max c.1 (max c.2.1 c.2.2)
  let mn := min c.1 (min c.2.1 c.2.2)
  if 0 < mx then ((mx : ℚ) - (mn : ℚ)) / (mx : ℚ) else 0

/-- Detector helper `_region_avg_saturation`. -/
def region_avg_saturation (pix : Nat → Nat → RGB) (x1 y1 x2 y2 tw th : Nat) : ℚ :=
  listAvg ((regionPts x1 y1 x2 y2 tw th 2).map (fun p => pixSat (pix p.1 p.2)))

/-- Warm-pixel test of `_region_warm_ratio`:
`r > 100 and g > 60 and b < g and r > b * 1.3`. -/
def isWarm (c : RGB) : Bool :=
  decide (100 < c.1 ∧ 60 < c.2.1 ∧ c.2.2 < c.2.1 ∧ (c.2.2 : ℚ) * (13/10) < (c.1 : ℚ))

/-- Detector helper `_region_warm_ratio` (stride 3). -/
def region_warm_frac (pix : Nat → Nat → RGB) (x1 y1 x2 y2 tw th : Nat) : ℚ :=
  let pts := regionPts x1 y1 x2 y2 tw th 3
  let warm := pts.countP (fun p => isWarm (pix p.1 p.2))
  if pts.length = 0 then 0 else (warm : ℚ) / (pts.length : ℚ)

/-- Named colour bands of `_region_color_ratio`. -/
inductive ColorName where
  | green | yellow | red | blue
deriving DecidableEq

/-- Colour-band membership tests of `_region_color_ratio`. -/
def matchesColor (color : ColorName) (c : RGB) : Bool :=
  let r := c.1
  let g := c.2.1
  let b := c.2.2
  match color with
  | ColorName.green => decide (80 < g ∧ (r : ℚ) * (6/5) < (g : ℚ) ∧ (b : ℚ) * (6/5) < (g : ℚ))
  | ColorName.yellow => decide (150 < r ∧ 130 < g ∧ b < 80)
  | ColorName.red => decide (120 < r ∧ (g : ℚ) * (3/2) < (r : ℚ) ∧ (b : ℚ) * (3/2) < (r : ℚ))
  | ColorName.blue => decide (120 < b ∧ (r : ℚ) * (13/10) < (b : ℚ) ∧ (g : ℚ) * (11/10) < (b : ℚ))

/-- Detector helper `_region_color_ratio` (stride 3). -/
def region_color_frac (pix : Nat → Nat → RGB) (x1 y1 x2 y2 tw th : Nat)
    (color : ColorName) : ℚ :=
  let pts := regionPts x1 y1 x2 y2 tw th 3
  let matched := pts.countP (fun p => matchesColor color (pix p.1 p.2))
  if pts.length = 0 then 0 else (matched : ℚ) / (pts.length : ℚ)

/-- One row average of `_check_horizontal_banding`: stride-4 scan of the
central 15%..85% columns of one row, skipped (`none`) when it has no
samples. -/
def bandRow (pix : Nat → Nat → RGB) (tw : Nat) (y : Nat) : Option ℚ :=
  let vals := (pyRange (ratFloorNat ((tw : ℚ) * (3/20)))
      (ratFloorNat ((tw : ℚ) * (17/20))) 4).map (fun x => pixBright (pix x y))
  if vals.isEmpty then none else some (vals.sum / (vals.length : ℚ))

/-- Detector helper `_check_horizontal_banding`: row averages on a stride-2
scan of rows; fewer than 10 rows scores 0; otherwise count adjacent-row
brightness jumps above 15 and normalise by `expected_bands * 1.5`, capped
at 1 (`th` is unused, as in the source helper). -/
def check_horizontal_banding (pix : Nat → Nat → RGB) (tw th y_start y_end
    expected_bands : Nat) : ℚ :=
  let rows := (pyRange y_start y_end 2).filterMap (bandRow pix tw)
  if rows.length < 10 then 0
  else
    let transitions := (rows.zip rows.tail).countP (fun p => decide ((15 : ℚ) < |p.1 - p.2|))
    min ((transitions : ℚ) / ((expected_bands : ℚ) * (3/2))) 1

/-- Score of one champion-splash slot in `_check_5x2_grid`: none when the
slot has no samples, otherwise 1.0 / 0.5 / 0.1 by brightness variance. -/
def gridSlotScore (pix : Nat → Nat → RGB) (tw th : Nat) (rowY : ℚ × ℚ)
    (col : Nat) : Option ℚ :=
  let x1 := ratFloorNat ((tw : ℚ) * (1/100 + (col : ℚ) * (39/200)))
  let x2 := ratFloorNat ((tw : ℚ) * (1/100 + (col : ℚ) * (39/200) + 17/100))
  let y1 := ratFloorNat ((th : ℚ) * rowY.1)
  let y2 := ratFloorNat ((th : ℚ) * rowY.2)
  let pts := gridPts (max 0 x1) (min (tw - 1) x2) (max 0 y1) (min (th - 1) y2) 2 2
  let brightness := pts.map (fun p => pixBright (pix p.1 p.2))
  if brightness.isEmpty then none
  else
    let avg := brightness.sum / (brightness.length : ℚ)
    let var := (brightness.map (fun b => (b - avg) ^ 2)).sum / (brightness.length : ℚ)
    some (if 30 < avg ∧ avg < 200 ∧ 100 < var then 1
          else if 30 < var then 1/2 else 1/10)

/-- Detector helper `_check_5x2_grid`: fraction (out of 8) of the ten
loading-screen splash slots whose score exceeds 0.4, capped at 1. -/
def check_5x2_grid (pix : Nat → Nat → RGB) (tw th : Nat) : ℚ :=
  let slot_scores := ([((2:ℚ)/25, (9:ℚ)/20), ((11:ℚ)/20, (23:ℚ)/25)]).flatMap
    (fun rowY => (List.range 5).filterMap (fun col => gridSlotScore pix tw th rowY col))
  let matched := slot_scores.countP (fun s => decide ((2:ℚ)/5 < s))
  min ((matched : ℚ) / 8) 1

/-! ## The six candidate state checks of GameStateDetector.detect -/

/-- GameStateDetector._check_loading_screen. -/
def check_loading_screen (img : Image) (rs : Resize) : GameStateResult :=
  let thumb := rs img 160 90
  let pixels := getdata thumb
  let dark_pixels := pixels.countP (fun c => decide (c.1 < 50 ∧ c.2.1 < 50 ∧ c.2.2 < 50))
  let darkFrac := (dark_pixels : ℚ) / (pixels.length : ℚ)
  let tw := thumb.width
  let th := thumb.height
  let grid_score := check_5x2_grid thumb.pixel tw th
  let m := get_pixel_region MINIMAP 160 90
  let minimap_brightness := region_avg_brightness thumb.pixel m.1 m.2.1 m.2.2.1 m.2.2.2 tw th
  let aspect := (img.width : ℚ) / (img.height : ℚ)
  let confidence : ℚ :=
    (if 1/4 ≤ darkFrac ∧ darkFrac ≤ 7/10 then 1/4 else 0)
    + (if 1/2 < grid_score then 9/20 * grid_score else 0)
    + (if minimap_brightness < 60 then 3/20 else 0)
    + (if 17/10 ≤ aspect ∧ aspect ≤ 37/20 then 1/10 else 0)
  { state := GameState.LOADING_SCREEN, confidence := min confidence 1
    phase := some GamePhase.PRE_GAME, coaching_action := "full_pregame_plan" }

/-- GameStateDetector._check_tab_scoreboard. -/
def check_tab_scoreboard (img : Image) (rs : Resize) : GameStateResult :=
  let thumb := rs img 320 180
  let pix := thumb.pixel
  let tw := 320
  let th := 180
  let c := get_pixel_region TAB_OVERLAY tw th
  let center_brightness := region_avg_brightness pix c.1 c.2.1 c.2.2.1 c.2.2.2 tw th
  let center_dark := region_dark_frac pix c.1 c.2.1 c.2.2.1 c.2.2.2 tw th
  let band_score := check_horizontal_banding pix tw th
    (ratFloorNat ((th : ℚ) * (1/10))) (ratFloorNat ((th : ℚ) * (4/5))) 10
  let m := get_pixel_region MINIMAP tw th
  let minimap_brightness := region_avg_brightness pix m.1 m.2.1 m.2.2.1 m.2.2.2 tw th
  let has_minimap := decide (30 < minimap_brightness)
  let confidence : ℚ :=
    (if 2/5 < center_dark then 1/4 else 0)
    + (if 30 < center_brightness ∧ center_brightness < 100 then 3/20 else 0)
    + (if 2/5 < band_score then 7/20 else 0)
    + (if has_minimap then 3/20 else 0)
  { state := GameState.TAB_SCOREBOARD, confidence := min confidence 1
    coaching_action := "item_check_and_build_adjust"
    extracted_has_minimap := some has_minimap }

/-- GameStateDetector._check_shop_open. -/
def check_shop_open (img : Image) (rs : Resize) : GameStateResult :=
  let thumb := rs img 320 180
  let pix := thumb.pixel
  let tw := 320
  let th := 180
  let s := get_pixel_region SHOP_WINDOW tw th
  let shop_brightness := region_avg_brightness pix s.1 s.2.1 s.2.2.1 s.2.2.2 tw th
  let shop_warm := region_warm_frac pix s.1 s.2.1 s.2.2.1 s.2.2.2 tw th
  let g := get_pixel_region SHOP_GOLD_DISPLAY tw th
  let gold_yellow := region_color_frac pix g.1 g.2.1 g.2.2.1 g.2.2.2 tw th ColorName.yellow
  let m := get_pixel_region MINIMAP tw th
  let minimap_brightness := region_avg_brightness pix m.1 m.2.1 m.2.2.1 m.2.2.2 tw th
  let has_minimap := decide (30 < minimap_brightness)
  let confidence : ℚ :=
    (if 60 < shop_brightness then 1/5 else 0)
    + (if 3/20 < shop_warm then 3/10 else 0)
    + (if 1/20 < gold_yellow then 1/4 else 0)
    + (if has_minimap then 3/20 else 0)
  { state := GameState.SHOP_OPEN, confidence := min confidence 1
    coaching_action := "buy_recommendation" }

/-- GameStateDetector._check_death_screen (reads the detector's
current state for its temporal bonus). -/
def check_death_screen (d : DetectorState) (img : Image) (rs : Resize) : GameStateResult :=
  let thumb := rs img 160 90
  let pixels := getdata thumb
  let saturation_values := pixels.map pixSat
  let avg_saturation := saturation_values.sum / (saturation_values.length : ℚ)
  let gray_pixels := pixels.countP (fun c => decide
    (((c.1 : ℤ) - (c.2.1 : ℤ)).natAbs < 30 ∧ ((c.2.1 : ℤ) - (c.2.2 : ℤ)).natAbs < 30
      ∧ ((c.1 : ℤ) - (c.2.2 : ℤ)).natAbs < 30 ∧ 30 < c.1 ∧ c.1 < 180))
  let grayFrac := (gray_pixels : ℚ) / (pixels.length : ℚ)
  let brightness_values := pixels.map pixBright
  let mean := brightness_values.sum / (brightness_values.length : ℚ)
  let brightness_variance :=
    (brightness_values.map (fun b => (b - mean) ^ 2)).sum / (brightness_values.length : ℚ)
  let confidence : ℚ :=
    (if avg_saturation < 3/20 then 2/5 else if avg_saturation < 1/4 then 1/5 else 0)
    + (if 7/20 < grayFrac then 3/10 else 0)
    + (if 200 < brightness_variance then 3/20 else 0)
    + (if d.current_state = GameState.IN_GAME_LANING
          ∨ d.current_state = GameState.IN_GAME_TEAMFIGHT then 1/10 else 0)
  { state := GameState.DEATH_SCREEN, confidence := min confidence 1
    coaching_action := "death_review_and_recovery" }

/-- GameStateDetector._check_post_game. -/
def check_post_game (img : Image) (rs : Resize) : GameStateResult :=
  let thumb := rs img 160 90
  let pixels := getdata thumb
  let pix := thumb.pixel
  let tw := 160
  let th := 90
  let h := get_pixel_region POSTGAME_HEADER tw th
  let header_brightness := region_avg_brightness pix h.1 h.2.1 h.2.2.1 h.2.2.2 tw th
  let blue_gold := pixels.countP (fun c => decide
    ((150 < c.2.2 ∧ c.1 < c.2.2) ∨ (180 < c.1 ∧ 150 < c.2.1 ∧ c.2.2 < 100)))
  let victoryFrac := (blue_gold : ℚ) / (pixels.length : ℚ)
  let band_score := check_horizontal_banding pix tw th
    (ratFloorNat ((th : ℚ) * (3/20))) (ratFloorNat ((th : ℚ) * (17/20))) 10
  let m := get_pixel_region MINIMAP tw th
  let minimap_brightness := region_avg_brightness pix m.1 m.2.1 m.2.2.1 m.2.2.2 tw th
  let confidence : ℚ :=
    (if 80 < header_brightness then 1/5 else 0)
    + (if 3/100 < victoryFrac then 1/5 else 0)
    + (if 3/10 < band_score then 3/10 else 0)
    + (if minimap_brightness < 50 then 1/10 else 0)
  { state := GameState.POST_GAME_STATS, confidence := min confidence 1
    phase := some GamePhase.POST_GAME, coaching_action := "game_review" }

/-- GameStateDetector._estimate_game_phase: bucket elapsed minutes since the
session clock started; on the first in-game detection the clock is set to
the current time (a side effect on the detector, returned as the second
component). -/
def estimate_game_phase (game_start_time : Option ℚ) (now : ℚ) : GamePhase × Option ℚ :=
  match game_start_time with
  | none => (GamePhase.EARLY_LANING, some now)
  | some t =>
    let elapsed_minutes := (now - t) / 60
    (if elapsed_minutes < 8 then GamePhase.EARLY_LANING
     else if elapsed_minutes < 14 then GamePhase.MID_LANING
     else if elapsed_minutes < 25 then GamePhase.MID_GAME
     else GamePhase.LATE_GAME, some t)

/-- GameStateDetector._check_in_game.  The sub-state is always the laning
default (`state = GameState.IN_GAME_LANING  # Default` in the source); the
second component is the possibly updated session clock. -/
def check_in_game (d : DetectorState) (img : Image) (rs : Resize) (now : ℚ) :
    GameStateResult × Option ℚ :=
  let thumb := rs img 320 180
  let pix := thumb.pixel
  let tw := 320
  let th := 180
  let m := get_pixel_region MINIMAP tw th
  let minimap_brightness := region_avg_brightness pix m.1 m.2.1 m.2.2.1 m.2.2.2 tw th
  let minimap_saturation := region_avg_saturation pix m.1 m.2.1 m.2.2.1 m.2.2.2 tw th
  let has_minimap := decide (35 < minimap_brightness ∧ 1/10 < minimap_saturation)
  let hd := get_pixel_region PLAYER_HUD tw th
  let hud_brightness := region_avg_brightness pix hd.1 hd.2.1 hd.2.2.1 hd.2.2.2 tw th
  let has_hud := decide (25 < hud_brightness)
  let hb := get_pixel_region HEALTH_BAR tw th
  let health_green := region_color_frac pix hb.1 hb.2.1 hb.2.2.1 hb.2.2.2 tw th ColorName.green
  let has_health := decide (1/20 < health_green)
  let center_saturation := region_avg_saturation pix
    (ratFloorNat ((tw : ℚ) * (1/5))) (ratFloorNat ((th : ℚ) * (1/5)))
    (ratFloorNat ((tw : ℚ) * (7/10))) (ratFloorNat ((th : ℚ) * (7/10))) tw th
  let confidence : ℚ :=
    (if has_minimap then 7/20 else 0)
    + (if has_hud then 1/4 else 0)
    + (if has_health then 1/5 else 0)
    + (if 3/25 < center_saturation then 3/20 else 0)
  let pg := estimate_game_phase d.game_start_time now
  ({ state := GameState.IN_GAME_LANING, confidence := min confidence 1
     phase := some pg.1, coaching_action := "live_coaching" }, pg.2)

/-! ## detect: candidate selection, temporal context, history update -/

/-- Head of `candidates.sort(key=confidence, reverse=True)`: Python's sort is
stable, so the chosen element is the first candidate attaining the maximal
confidence, i.e. a left fold that replaces only on strictly greater
confidence. -/
def pickBest (c : GameStateResult) (cs : List GameStateResult) : GameStateResult :=
  cs.foldl (fun b x => if b.confidence < x.confidence then x else b) c

/-- GameStateDetector._determine_coaching_action. -/
def determine_coaching_action (s : GameState) : String :=
  match s with
  | GameState.LOADING_SCREEN => "full_pregame_plan"
  | GameState.TAB_SCOREBOARD => "item_check_and_build_adjust"
  | GameState.SHOP_OPEN => "buy_recommendation"
  | GameState.DEATH_SCREEN => "death_review_and_recovery"
  | GameState.POST_GAME_STATS => "game_review"
  | GameState.IN_GAME_LANING => "lane_coaching"
  | GameState.IN_GAME_TEAMFIGHT => "teamfight_coaching"
  | GameState.IN_GAME_OBJECTIVES => "objective_coaching"
  | GameState.CHAMPION_SELECT => "draft_advice"
  | GameState.NOT_LOL => "none"

/-- GameStateDetector._apply_temporal_context: run before the history is
appended, so `_state_history[-1]` is the record of the previous detect call.
Returns the refined result and the detector with a possibly restarted
session clock. -/
def apply_temporal_context (d : DetectorState) (result : GameStateResult) (now : ℚ) :
    GameStateResult × DetectorState :=
  let rd :=
    if d.current_state = GameState.LOADING_SCREEN
        ∧ result.state = GameState.IN_GAME_LANING then
      ({ result with phase := some GamePhase.EARLY_LANING },
       { d with game_start_time := some now })
    else (result, d)
  match rd.2.state_history.getLast? with
  | none => rd
  | some last =>
    if last.2 = rd.1.state then
      ({ rd.1 with state_duration_seconds := now - last.1 }, rd.2)
    else rd

/-- GameStateDetector.detect: run the six candidate checks (the in-game
check may start the session clock as a side effect), pick the
highest-confidence candidate, apply temporal context, append to the bounded
history (truncated from 100 to the last 50), record the previous state and
the coaching action, and update the current state and last detection time. -/
def detect (d : DetectorState) (img : Image) (rs : Resize) (now : ℚ) :
    GameStateResult × DetectorState :=
  let c1 := check_loading_screen img rs
  let c2 := check_tab_scoreboard img rs
  let c3 := check_shop_open img rs
  let c4 := check_death_screen d img rs
  let c5 := check_post_game img rs
  let c6g := check_in_game d img rs now
  let best0 := pickBest c1 [c2, c3, c4, c5, c6g.1]
  let d1 : DetectorState := { d with game_start_time := c6g.2 }
  let bd := apply_temporal_context d1 best0 now
  let h1 := bd.2.state_history ++ [(now, bd.1.state)]
  let h2 := if 100 < h1.length then h1.drop (h1.length - 50) else h1
  let best := { bd.1 with
    previous_state := some bd.2.current_state
    coaching_action := determine_coaching_action bd.1.state }
  (best, { bd.2 with
    state_history := h2
    current_state := best.state
    last_detection_time := now })

/-! ## GameSession (game_state_detector.py) — accumulated session knowledge

Python dicts keyed by champion name (`enemy_items`, `enemy_levels`,
`enemy_kda`) are modelled as lookup functions returning `Option`;
`dict.update` becomes pointwise override.  Dict-valued fields that the
embedded operations never touch (`role_assignments`, the build plans,
event payload dicts) are modelled as association lists; their precise
entry type is irrelevant to every theorem below. -/

/-- One entry of `user_items_history`: `{"time": t, "items": items}`. -/
structure ItemSnapshot where
  time : ℚ
  items : List String
deriving DecidableEq, Repr

/-- One entry of `deaths`, as appended by `update_from_death`. -/
structure DeathRecord where
  time : ℚ
  game_time : Option String
  killed_by : Option String
  damage_breakdown : Option String
  advice : Option String
deriving DecidableEq, Repr

/-- GameSession: accumulated knowledge across multiple screenshots. -/
structure GameSession where
  game_id : Option String
  start_time : Option ℚ
  blue_team : List String
  red_team : List String
  user_champion : String
  user_role : String
  user_team : String
  lane_opponent : String
  role_assignments : List (String × List (String × String))
  user_items : List String
  user_items_history : List ItemSnapshot
  user_gold : Int
  user_cs : Int
  user_level : Int
  user_kda : Int × Int × Int
  enemy_items : String → Option (List String)
  enemy_levels : String → Option Int
  enemy_kda : String → Option (Int × Int × Int)
  deaths : List DeathRecord
  objectives_taken : List (String × String)
  screenshots_analyzed : Nat
  coaching_advice_given : List (String × String)
  original_build_plan : List (String × String)
  adjusted_build_plan : List (String × String)
  build_adjustments : List (String × String)

/-- GameSession.__init__ defaults. -/
def sessionInit : GameSession :=
  { game_id := none
    start_time := none
    blue_team := []
    red_team := []
    user_champion := ""
    user_role := ""
    user_team := ""
    lane_opponent := ""
    role_assignments := []
    user_items := []
    user_items_history := []
    user_gold := 0
    user_cs := 0
    user_level := 1
    user_kda := (0, 0, 0)
    enemy_items := fun _ => none
    enemy_levels := fun _ => none
    enemy_kda := fun _ => none
    deaths := []
    objectives_taken := []
    screenshots_analyzed := 0
    coaching_advice_given := []
    original_build_plan := []
    adjusted_build_plan := []
    build_adjustments := [] }

/-- The extraction dict handed to `update_from_tab`.  The method tests
membership of exactly four keys (`user_items`, `user_cs`, `user_kda`,
`enemy_items`); an absent key is `none`.  Any further key of the Python
dict is never read by the method and needs no model. -/
structure TabAnalysis where
  user_items : Option (List String) := none
  user_cs : Option Int := none
  user_kda : Option (Int × Int × Int) := none
  enemy_items : Option (List (String × List String)) := none

/-- The list of the four recognised keys that are present in a tab
extraction, in source order. -/
def tabKeys (t : TabAnalysis) : List String :=
  (if t.user_items.isSome then ["user_items"] else [])
  ++ (if t.user_cs.isSome then ["user_cs"] else [])
  ++ (if t.user_kda.isSome then ["user_kda"] else [])
  ++ (if t.enemy_items.isSome then ["enemy_items"] else [])

/-- Pointwise effect of Python `base.update(upd)` on a dict modelled as a
lookup function: keys of `upd` take their new values, all other keys keep
their old binding. -/
def dictOverride (f : String → Option (List String))
    (upd : List (String × List String)) : String → Option (List String) :=
  fun k =>
    match upd.lookup k with
    | some v => some v
    | none => f k

/-- GameSession.update_from_tab: for each key present in the extraction,
overwrite the corresponding field; a present `user_items` additionally
appends a timestamped snapshot to `user_items_history`; a present
`enemy_items` merges into the enemy-items dict (`dict.update`).  `now` is
the `time.time()` read for the snapshot. -/
def update_from_tab (s : GameSession) (t : TabAnalysis) (now : ℚ) : GameSession :=
  let s1 := match t.user_items with
    | some its =>
      { s with user_items := its
               user_items_history := s.user_items_history ++ [{ time := now, items := its }] }
    | none => s
  let s2 := match t.user_cs with
    | some c => { s1 with user_cs := c }
    | none => s1
  let s3 := match t.user_kda with
    | some k => { s2 with user_kda := k }
    | none => s2
  match t.enemy_items with
  | some upd => { s3 with enemy_items := dictOverride s3.enemy_items upd }
  | none => s3

/-- The extraction dict handed to `update_from_death`; the method reads
exactly four keys with `.get` (absent keys become `None`). -/
structure DeathAnalysis where
  game_time : Option String := none
  killed_by : Option String := none
  damage_breakdown : Option String := none
  advice : Option String := none

/-- GameSession.update_from_death: append one death record; no other field
is touched and nothing is ever discarded from the list. -/
def update_from_death (s : GameSession) (d : DeathAnalysis) (now : ℚ) : GameSession :=
  { s with deaths := s.deaths ++
      [{ time := now, game_time := d.game_time, killed_by := d.killed_by
         damage_breakdown := d.damage_breakdown, advice := d.advice }] }

/-! ## AgentCircuitBreaker (orchestrator/swarm.py) -/

/-- Observable outcome of awaiting the wrapped coroutine under
`asyncio.wait_for`: a value, or a failure (TimeoutError or any raised
exception — the source catches both identically). -/
inductive CallOutcome (V : Type) where
  | success (v : V)
  | failure
deriving DecidableEq, Repr

/-- AgentCircuitBreaker instance state. -/
structure AgentCircuitBreaker where
  name : String
  failures : Nat
  threshold : Nat
  timeout : ℚ
  is_open : Bool
deriving DecidableEq, Repr

/-- AgentCircuitBreaker.__init__ (failure_threshold defaults to 3,
timeout to 30.0). -/
def breakerInit (name : String) (failure_threshold : Nat := 3) (timeout : ℚ := 30) :
    AgentCircuitBreaker :=
  { name := name, failures := 0, threshold := failure_threshold
    timeout := timeout, is_open := false }

/-- AgentCircuitBreaker.execute.  Returns the new breaker state, the value
handed back to the caller (the wrapped call's result on success, else the
fallback, or `none` when no fallback is supplied), and whether the wrapped
call was awaited at all. -/
def AgentCircuitBreaker.execute {V : Type} (cb : AgentCircuitBreaker)
    (call : CallOutcome V) (fallback : Option V) :
    AgentCircuitBreaker × Option V × Bool :=
  if cb.is_open then (cb, fallback, false)
  else
    match call with
    | CallOutcome.success v => ({ cb with failures := 0 }, some v, true)
    | CallOutcome.failure =>
      let f := cb.failures + 1
      ({ cb with failures := f
                 is_open := if cb.threshold ≤ f then true else cb.is_open },
       fallback, true)

/-- `n` consecutive `execute` invocations whose wrapped call always fails. -/
def failN (V : Type) (cb : AgentCircuitBreaker) (fallback : Option V) : Nat → AgentCircuitBreaker
  | 0 => cb
  | n + 1 => ((failN V cb fallback n).execute (CallOutcome.failure (V := V)) fallback).1

/-! ## FinalJudgeValidatorAgent (agents/judge.py) -/

def VALID_RUNE_TREES : List String :=
  ["Precision", "Domination", "Sorcery", "Resolve", "Inspiration"]

def VALID_KEYSTONES : List String :=
  ["Conqueror", "Lethal Tempo", "Fleet Footwork", "Press the Attack",
   "Electrocute", "Dark Harvest", "Hail of Blades", "Predator",
   "Summon Aery", "Arcane Comet", "Phase Rush",
   "Grasp of the Undying", "Aftershock", "Guardian",
   "Glacial Augment", "Unsealed Spellbook", "First Strike"]

def VALID_SUMMONERS : List String :=
  ["Flash", "Teleport", "Ignite", "Exhaust", "Heal", "Barrier",
   "Cleanse", "Ghost", "Smite"]

def VALID_SKILL_KEYS : List String := ["Q", "W", "E", "R"]

/-- schemas.models.RuneConfig (fields read by the judge). -/
structure RuneConfig where
  primary_tree : String
  primary : List String
  secondary_tree : String
  secondary : List String
  shards : List String
deriving DecidableEq, Repr

/-- schemas.models.SkillOrder. -/
structure SkillOrder where
  start : String
  max_order : List String
  levels_1_6 : List String
deriving DecidableEq, Repr

/-- schemas.models.BuildPlannerOutput (fields read by the judge). -/
structure BuildPlannerOutput where
  summoners : List String
  runes : RuneConfig
  skill_order : SkillOrder
  start_items : List String
  core_items : List String
  boots : String
  notes : List String
deriving DecidableEq, Repr

/-- schemas.models.FirstRecall. -/
structure FirstRecall where
  goal_gold : String
  timing_rule : String
  buy : List String
deriving DecidableEq, Repr

/-- schemas.models.LaningCoachOutput (fields read by the judge). -/
structure LaningCoachOutput where
  levels_1_3 : List String
  wave_plan : List String
  trade_windows : List String
  first_recall : FirstRecall
  level_6 : List String
  avoid_list : List String
  punish_list : List String
deriving DecidableEq, Repr

/-- schemas.models.TeamfightCoachOutput (fields read by the judge). -/
structure TeamfightCoachOutput where
  win_condition : String
  your_job : String
  target_priority : List String
  threat_list : List String
  fight_rules : List String
deriving DecidableEq, Repr

/-- schemas.models.MacroCoachOutput (fields read by the judge). -/
structure MacroCoachOutput where
  wards : List String
  roams : List String
  objectives : List String
  midgame : List String
  lategame : List String
deriving DecidableEq, Repr

/-- schemas.models.JudgeInput.  The source field holding the
MacroCoachOutput is named after the macro game plan; that name is a Lean
keyword, so it is embedded as the field `macPlan`. -/
structure JudgeInput where
  build : BuildPlannerOutput
  laning : LaningCoachOutput
  teamfight : TeamfightCoachOutput
  macPlan : MacroCoachOutput
  user_champion : String
  lane_opponent : String
  patch_version : String
deriving DecidableEq, Repr

/-- schemas.models.ValidationFix. -/
structure ValidationFix where
  field : String
  issue : String
  fix_applied : String
deriving DecidableEq, Repr

/-- schemas.models.JudgeOutput (the wall-clock `processing_time_ms` field is
not modelled). -/
structure JudgeOutput where
  approved : Bool
  fixes_applied : List ValidationFix
  remaining_uncertainty : List String
  schema_valid : Bool
  cross_agent_consistent : Bool
deriving DecidableEq, Repr

/-- The `fixes` list built by FinalJudgeValidatorAgent.validate, in
source order: invalid summoners (check 1), invalid primary and secondary
rune trees (check 2), invalid skill keys and invalid start skill
(check 4), missing target priority (check 7), and the schema-validation
failure (check 10).  `pydantic_ok` is the outcome of the Pydantic
re-validation of the four phase payloads, an external library call.
Checks 5 and 9 of the source compute local variables but append nothing. -/
def judgeFixes (inp : JudgeInput) (pydantic_ok : Bool) : List ValidationFix :=
  ((inp.build.summoners.enum).filterMap (fun p =>
    if VALID_SUMMONERS.contains p.2 then none
    else some { field := "build.summoners[" ++ toString p.1 ++ "]"
                issue := "Invalid summoner: " ++ p.2
                fix_applied := if p.1 = 0 then "Replaced with Flash"
                               else "Replaced with Teleport" }))
  ++ (if VALID_RUNE_TREES.contains inp.build.runes.primary_tree then []
      else [{ field := "build.runes.primary_tree"
              issue := "Invalid rune tree: " ++ inp.build.runes.primary_tree
              fix_applied := "Kept as-is (may be new/updated tree)" }])
  ++ (if VALID_RUNE_TREES.contains inp.build.runes.secondary_tree then []
      else [{ field := "build.runes.secondary_tree"
              issue := "Invalid secondary tree: " ++ inp.build.runes.secondary_tree
              fix_applied := "Kept as-is (may be new/updated tree)" }])
  ++ (inp.build.skill_order.levels_1_6.filterMap (fun key =>
    if VALID_SKILL_KEYS.contains key then none
    else some { field := "build.skill_order.levels_1_6"
                issue := "Invalid skill key: " ++ key
                fix_applied := "Flagged but not auto-corrected" }))
  ++ (if ["Q", "W", "E"].contains inp.build.skill_order.start then []
      else [{ field := "build.skill_order.start"
              issue := "Invalid start skill: " ++ inp.build.skill_order.start
              fix_applied := "Defaulted to Q" }])
  ++ (if inp.teamfight.target_priority.isEmpty then
        [{ field := "teamfight.target_priority"
           issue := "Missing target priority"
           fix_applied := "Added generic priority list" }]
      else [])
  ++ (if pydantic_ok then []
      else [{ field := "schema"
              issue := "Schema validation error"
              fix_applied := "Flagged for manual review" }])

/-- The `uncertainties` list built by FinalJudgeValidatorAgent.validate, in
source order: unknown primary rune tree (check 2), unknown keystone
(check 3), thin laning detail (check 6, two tests), thin ward plan
(check 8). -/
def judgeUncertainties (inp : JudgeInput) : List String :=
  (if VALID_RUNE_TREES.contains inp.build.runes.primary_tree then []
   else ["Rune tree not in validation set: " ++ inp.build.runes.primary_tree])
  ++ (match inp.build.runes.primary.head? with
      | some keystone =>
        if keystone ≠ "" ∧ ¬ VALID_KEYSTONES.contains keystone then
          ["Keystone not in validation set (may be valid for current patch): " ++ keystone]
        else []
      | none => [])
  ++ (if inp.laning.levels_1_3.length < 2 then
        ["Laning plan has minimal detail for levels 1-3"] else [])
  ++ (if inp.laning.trade_windows.length < 2 then
        ["Trade window advice is minimal"] else [])
  ++ (if inp.macPlan.wards.length < 2 then
        ["Ward plan is minimal - consider adding more ward locations"] else [])

/-- FinalJudgeValidatorAgent.validate.  `approved = schema_valid and
len(fixes) <= 3`; `schema_valid` is exactly the Pydantic re-validation
outcome; `cross_agent_consistent = len(fixes) == 0`. -/
def validate (inp : JudgeInput) (pydantic_ok : Bool) : JudgeOutput :=
  let fixes := judgeFixes inp pydantic_ok
  { approved := pydantic_ok && decide (fixes.length ≤ 3)
    fixes_applied := fixes
    remaining_uncertainty := judgeUncertainties inp
    schema_valid := pydantic_ok
    cross_agent_consistent := decide (fixes.length = 0) }

/-! ## LiveCoachingPipeline.process_screenshot (daemon/live_pipeline.py) -/

/-- Configuration fields of LivePipelineConfig read by
`process_screenshot` (defaults from the source). -/
structure LivePipelineConfig where
  game_state_confidence : ℚ := 13/20
  loading_screen_confidence : ℚ := 7/10
  cooldown_between_shots : ℚ := 3

/-- CoachingResult, restricted to the fields every branch of
`process_screenshot` sets before returning (the remaining fields default
to empty values and are only filled by the downstream coaching engine,
which the pipeline model abstracts). -/
structure CoachingResult where
  headline : String := ""
  game_state : String := "unknown"
  warnings : List String := []
deriving DecidableEq, Repr

/-- Mutable pipeline state: the last run's start time
(`_last_process_time`, initially 0.0), the detector, and the per-agent
circuit breakers of the loading-screen swarm. -/
structure PipeState where
  last_process_time : ℚ
  detector : DetectorState
  breakers : List (String × AgentCircuitBreaker)

/-- LiveCoachingPipeline.process_screenshot, modelled up to the routing of
an accepted screenshot.  `now` is the `time.time()` read at entry.
`coach` abstracts steps 2-6 of the source (image encoding, saving, and the
routing handlers `_handle_loading_screen` / `_handle_live_coaching`, which
call external services and may drive the breakers); it receives the
detection result and the breakers and returns the coaching result and the
breakers it leaves behind.  The third component records whether the
classifier (`state_detector.detect`) was invoked during the call.

Gate order, exactly as in the source: (1) the cooldown check returns a
"cooldown" result immediately, before the detector, the coaching engine or
any breaker is touched and before `_last_process_time` is advanced;
(2) otherwise the classifier runs, and a NOT_LOL state or a confidence
below `game_state_confidence` returns a "not_lol" result without any
coaching call. -/
def process_screenshot (cfg : LivePipelineConfig) (st : PipeState) (img : Image)
    (rs : Resize) (now : ℚ)
    (coach : GameStateResult → List (String × AgentCircuitBreaker) →
      CoachingResult × List (String × AgentCircuitBreaker)) :
    CoachingResult × PipeState × Bool :=
  if now - st.last_process_time < cfg.cooldown_between_shots then
    ({ headline := "Processing previous screenshot - wait a moment"
       game_state := "cooldown" }, st, false)
  else
    let rd := detect st.detector img rs now
    let st1 : PipeState := { st with last_process_time := now, detector := rd.2 }
    if rd.1.state = GameState.NOT_LOL
        ∨ rd.1.confidence < cfg.game_state_confidence then
      ({ headline := "Not a League screenshot - take a screenshot in-game!"
         game_state := "not_lol"
         warnings := ["Tip: Press TAB then PrintScreen for best item/build analysis"] },
       st1, true)
    else
      let cb := coach rd.1 st1.breakers
      (cb.1, { st1 with breakers := cb.2 }, true)

/-! ## General lemmas -/

/-- A guarded confidence contribution is nonnegative. -/
theorem guard_nonneg (c : Prop) [Decidable c] (a : ℚ) (h : 0 ≤ a) :
    0 ≤ if c then a else 0 := by
  split
  · exact h
  · exact le_refl 0

/-- A clamped confidence lies in the unit interval. -/
theorem clamp_unit (x : ℚ) (h : 0 ≤ x) : 0 ≤ min x 1 ∧ min x 1 ≤ 1 :=
  ⟨le_min h zero_le_one, min_le_right _ _⟩

theorem pickBest_cons (c x : GameStateResult) (xs : List GameStateResult) :
    pickBest c (x :: xs)
      = pickBest (if c.confidence < x.confidence then x else c) xs := rfl

/-- The selected candidate is one of the candidates. -/
theorem pickBest_mem (c : GameStateResult) (cs : List GameStateResult) :
    pickBest c cs ∈ c :: cs := by
  induction cs generalizing c with
  | nil => simp [pickBest]
  | cons x xs ih =>
    rw [pickBest_cons]
    rcases List.mem_cons.mp (ih (if c.confidence < x.confidence then x else c)) with h | h
    · rw [h]
      by_cases hc : c.confidence < x.confidence
      · simp [hc]
      · simp [hc]
    · simp [List.mem_cons.mpr (Or.inr (List.mem_cons.mpr (Or.inr h)))]

/-- Temporal refinement touches only the phase and duration fields. -/
theorem apply_temporal_context_fields (d : DetectorState) (r : GameStateResult) (now : ℚ) :
    (apply_temporal_context d r now).1.confidence = r.confidence
    ∧ (apply_temporal_context d r now).1.state = r.state := by
  unfold apply_temporal_context
  by_cases h : d.current_state = GameState.LOADING_SCREEN
      ∧ r.state = GameState.IN_GAME_LANING
  · rw [if_pos h]
    dsimp only
    split
    · simp
    · split <;> simp
  · rw [if_neg h]
    dsimp only
    split
    · simp
    · split <;> simp

/-- check_5x2_grid never returns a negative score. -/
theorem check_5x2_grid_nonneg (pix : Nat → Nat → RGB) (tw th : Nat) :
    0 ≤ check_5x2_grid pix tw th := by
  unfold check_5x2_grid
  exact le_min (by positivity) zero_le_one

theorem check_loading_screen_confidence (img : Image) (rs : Resize) :
    0 ≤ (check_loading_screen img rs).confidence
    ∧ (check_loading_screen img rs).confidence ≤ 1 := by
  unfold check_loading_screen
  refine clamp_unit _ ?_
  have hg := check_5x2_grid_nonneg (rs img 160 90).pixel (rs img 160 90).width
    (rs img 160 90).height
  refine add_nonneg (add_nonneg (add_nonneg ?_ ?_) ?_) ?_
  · exact guard_nonneg _ _ (by norm_num)
  · exact guard_nonneg _ _ (by positivity)
  · exact guard_nonneg _ _ (by norm_num)
  · exact guard_nonneg _ _ (by norm_num)

theorem check_tab_scoreboard_confidence (img : Image) (rs : Resize) :
    0 ≤ (check_tab_scoreboard img rs).confidence
    ∧ (check_tab_scoreboard img rs).confidence ≤ 1 := by
  unfold check_tab_scoreboard
  refine clamp_unit _ ?_
  refine add_nonneg (add_nonneg (add_nonneg ?_ ?_) ?_) ?_ <;>
    exact guard_nonneg _ _ (by norm_num)

theorem check_shop_open_confidence (img : Image) (rs : Resize) :
    0 ≤ (check_shop_open img rs).confidence
    ∧ (check_shop_open img rs).confidence ≤ 1 := by
  unfold check_shop_open
  refine clamp_unit _ ?_
  refine add_nonneg (add_nonneg (add_nonneg ?_ ?_) ?_) ?_ <;>
    exact guard_nonneg _ _ (by norm_num)

theorem check_death_screen_confidence (d : DetectorState) (img : Image) (rs : Resize) :
    0 ≤ (check_death_screen d img rs).confidence
    ∧ (check_death_screen d img rs).confidence ≤ 1 := by
  unfold check_death_screen
  refine clamp_unit _ ?_
  refine add_nonneg (add_nonneg (add_nonneg ?_ ?_) ?_) ?_
  · split
    · norm_num
    · exact guard_nonneg _ _ (by norm_num)
  · exact guard_nonneg _ _ (by norm_num)
  · exact guard_nonneg _ _ (by norm_num)
  · exact guard_nonneg _ _ (by norm_num)

theorem check_post_game_confidence (img : Image) (rs : Resize) :
    0 ≤ (check_post_game img rs).confidence
    ∧ (check_post_game img rs).confidence ≤ 1 := by
  unfold check_post_game
  refine clamp_unit _ ?_
  refine add_nonneg (add_nonneg (add_nonneg ?_ ?_) ?_) ?_ <;>
    exact guard_nonneg _ _ (by norm_num)

theorem check_in_game_confidence (d : DetectorState) (img : Image) (rs : Resize) (now : ℚ) :
    0 ≤ (check_in_game d img rs now).1.confidence
    ∧ (check_in_game d img rs now).1.confidence ≤ 1 := by
  unfold check_in_game
  refine clamp_unit _ ?_
  refine add_nonneg (add_nonneg (add_nonneg ?_ ?_) ?_) ?_ <;>
    exact guard_nonneg _ _ (by norm_num)

theorem check_loading_screen_state (img : Image) (rs : Resize) :
    (check_loading_screen img rs).state = GameState.LOADING_SCREEN := rfl

theorem check_tab_scoreboard_state (img : Image) (rs : Resize) :
    (check_tab_scoreboard img rs).state = GameState.TAB_SCOREBOARD := rfl

theorem check_shop_open_state (img : Image) (rs : Resize) :
    (check_shop_open img rs).state = GameState.SHOP_OPEN := rfl

theorem check_death_screen_state (d : DetectorState) (img : Image) (rs : Resize) :
    (check_death_screen d img rs).state = GameState.DEATH_SCREEN := rfl

theorem check_post_game_state (img : Image) (rs : Resize) :
    (check_post_game img rs).state = GameState.POST_GAME_STATS := rfl

theorem check_in_game_state (d : DetectorState) (img : Image) (rs : Resize) (now : ℚ) :
    (check_in_game d img rs now).1.state = GameState.IN_GAME_LANING := rfl

/-- The result of detect carries the confidence and state of one of the six
candidate checks. -/
theorem detect_best_mem (d : DetectorState) (img : Image) (rs : Resize) (now : ℚ) :
    ∃ c, c ∈ [check_loading_screen img rs, check_tab_scoreboard img rs,
              check_shop_open img rs, check_death_screen d img rs,
              check_post_game img rs, (check_in_game d img rs now).1]
      ∧ (detect d img rs now).1.confidence = c.confidence
      ∧ (detect d img rs now).1.state = c.state := by
  refine ⟨pickBest (check_loading_screen img rs)
      [check_tab_scoreboard img rs, check_shop_open img rs,
       check_death_screen d img rs, check_post_game img rs,
       (check_in_game d img rs now).1],
    pickBest_mem _ _, ?_, ?_⟩
  · unfold detect
    dsimp only
    exact (apply_temporal_context_fields _ _ _).1
  · unfold detect
    dsimp only
    exact (apply_temporal_context_fields _ _ _).2

/-- C3: for every input frame (and every resampler, detector state and call
time), the confidence reported by GameStateDetector.detect lies in [0, 1]:
each candidate confidence is a sum of nonnegative guarded contributions
clamped above at 1, and temporal refinement never changes the chosen
confidence. -/
theorem c3_detect_confidence_in_unit_interval (d : DetectorState) (img : Image)
    (rs : Resize) (now : ℚ) :
    0 ≤ (detect d img rs now).1.confidence
    ∧ (detect d img rs now).1.confidence ≤ 1 := by
  obtain ⟨c, hc, hconf, -⟩ := detect_best_mem d img rs now
  rw [hconf]
  simp only [List.mem_cons, List.not_mem_nil, or_false] at hc
  rcases hc with h | h | h | h | h | h <;> rw [h]
  · exact check_loading_screen_confidence img rs
  · exact check_tab_scoreboard_confidence img rs
  · exact check_shop_open_confidence img rs
  · exact check_death_screen_confidence d img rs
  · exact check_post_game_confidence img rs
  · exact check_in_game_confidence d img rs now

/-- C10: every result of GameStateDetector.detect has its state drawn from
exactly the six candidate tags (the in-game check always reports the laning
sub-state), and the states IN_GAME_TEAMFIGHT, IN_GAME_OBJECTIVES,
CHAMPION_SELECT and NOT_LOL are never returned. -/
theorem c10_detect_state_among_six (d : DetectorState) (img : Image)
    (rs : Resize) (now : ℚ) :
    ((detect d img rs now).1.state = GameState.LOADING_SCREEN
      ∨ (detect d img rs now).1.state = GameState.TAB_SCOREBOARD
      ∨ (detect d img rs now).1.state = GameState.SHOP_OPEN
      ∨ (detect d img rs now).1.state = GameState.DEATH_SCREEN
      ∨ (detect d img rs now).1.state = GameState.POST_GAME_STATS
      ∨ (detect d img rs now).1.state = GameState.IN_GAME_LANING)
    ∧ (detect d img rs now).1.state ≠ GameState.IN_GAME_TEAMFIGHT
    ∧ (detect d img rs now).1.state ≠ GameState.IN_GAME_OBJECTIVES
    ∧ (detect d img rs now).1.state ≠ GameState.CHAMPION_SELECT
    ∧ (detect d img rs now).1.state ≠ GameState.NOT_LOL := by
  obtain ⟨c, hc, -, hstate⟩ := detect_best_mem d img rs now
  simp only [List.mem_cons, List.not_mem_nil, or_false] at hc
  rcases hc with h | h | h | h | h | h <;> rw [hstate, h]
  · rw [check_loading_screen_state]
    decide
  · rw [check_tab_scoreboard_state]
    decide
  · rw [check_shop_open_state]
    decide
  · rw [check_death_screen_state]
    decide
  · rw [check_post_game_state]
    decide
  · rw [check_in_game_state]
    decide

/-! ## Circuit breaker (C1) -/

/-- Shape of the breaker after k consecutive failing calls from a closed
breaker with a zero failure counter. -/
theorem failN_eq {V : Type} (cb : AgentCircuitBreaker) (fb : Option V)
    (h0 : cb.failures = 0) (h1 : cb.is_open = false) (h2 : 1 ≤ cb.threshold) :
    ∀ k, k ≤ cb.threshold →
      failN V cb fb k = { cb with failures := k, is_open := decide (cb.threshold ≤ k) } := by
  intro k
  induction k with
  | zero =>
    intro _
    have hd : decide (cb.threshold ≤ 0) = false := by
      simp only [decide_eq_false_iff_not]
      omega
    rw [hd]
    cases cb
    simp_all [failN]
  | succ n ih =>
    intro hk
    have hn : n ≤ cb.threshold := Nat.le_of_succ_le hk
    have hlt : ¬ cb.threshold ≤ n := by omega
    rw [failN, ih hn, decide_eq_false hlt]
    unfold AgentCircuitBreaker.execute
    dsimp only
    by_cases hth : cb.threshold ≤ n + 1
    · rw [if_pos hth, decide_eq_true hth]
      rfl
    · rw [if_neg hth, decide_eq_false hth]
      rfl

/-- C1: starting from a closed AgentCircuitBreaker with a zero consecutive
failure counter, `threshold` failing execute calls flip `is_open` from
false to true exactly on the threshold-th call (every earlier call leaves
it closed), and any execute call on an open breaker returns the fallback
(`none` when no fallback is supplied) unchanged without awaiting the
wrapped call. -/
theorem c1_breaker_trips_exactly_at_threshold {V : Type} (cb : AgentCircuitBreaker)
    (fb : Option V) (h0 : cb.failures = 0) (h1 : cb.is_open = false)
    (h2 : 1 ≤ cb.threshold) :
    (∀ k, k < cb.threshold → (failN V cb fb k).is_open = false)
    ∧ (failN V cb fb cb.threshold).is_open = true
    ∧ ∀ (cb2 : AgentCircuitBreaker) (call : CallOutcome V) (fb2 : Option V),
        cb2.is_open = true → cb2.execute call fb2 = (cb2, fb2, false) := by
  refine ⟨?_, ?_, ?_⟩
  · intro k hk
    rw [failN_eq cb fb h0 h1 h2 k (Nat.le_of_lt hk)]
    simp only
    rw [decide_eq_false (by omega : ¬ cb.threshold ≤ k)]
  · rw [failN_eq cb fb h0 h1 h2 cb.threshold (Nat.le_refl _)]
    simp only
    rw [decide_eq_true (Nat.le_refl _)]
  · intro cb2 call fb2 hopen
    unfold AgentCircuitBreaker.execute
    rw [hopen]
    rfl

/-- Witness for C1 at the concrete breaker AgentCircuitBreaker("vision",
threshold 3, timeout 15): closed after 2 failures, open after 3, and an
open breaker short-circuits to the fallback. -/
theorem c1_breaker_witness :
    ((breakerInit "vision" 3 15).failures = 0
      ∧ (breakerInit "vision" 3 15).is_open = false
      ∧ 1 ≤ (breakerInit "vision" 3 15).threshold)
    ∧ (failN Nat (breakerInit "vision" 3 15) (some 7) 2).is_open = false
    ∧ (failN Nat (breakerInit "vision" 3 15) (some 7) 3).is_open = true
    ∧ ({ breakerInit "vision" 3 15 with is_open := true } : AgentCircuitBreaker).execute
        (CallOutcome.success 5) (some 7)
        = ({ breakerInit "vision" 3 15 with is_open := true }, some 7, false) :=
  ⟨⟨rfl, rfl, by decide⟩,
   (c1_breaker_trips_exactly_at_threshold (breakerInit "vision" 3 15) (some 7)
      rfl rfl (by decide)).1 2 (by decide),
   (c1_breaker_trips_exactly_at_threshold (breakerInit "vision" 3 15) (some 7)
      rfl rfl (by decide)).2.1,
   (c1_breaker_trips_exactly_at_threshold (breakerInit "vision" 3 15) (some 7)
      rfl rfl (by decide)).2.2 _ _ _ rfl⟩

/-! ## Pipeline cooldown gate (C2) -/

/-- C2: a run requested before the cooldown interval has elapsed since the
previous run's start time returns the immediate "cooldown" result, leaves
the whole pipeline state (detector and every breaker, including every
failure counter) untouched, and does not invoke the classifier. -/
theorem c2_cooldown_rejects_without_side_effects (cfg : LivePipelineConfig)
    (st : PipeState) (img : Image) (rs : Resize) (now : ℚ)
    (coach : GameStateResult → List (String × AgentCircuitBreaker) →
      CoachingResult × List (String × AgentCircuitBreaker))
    (h : now - st.last_process_time < cfg.cooldown_between_shots) :
    process_screenshot cfg st img rs now coach =
      ({ headline := "Processing previous screenshot - wait a moment"
         game_state := "cooldown" }, st, false) := by
  unfold process_screenshot
  rw [if_pos h]

/-- A constant-colour bitmap. -/
def constImage (w h : Nat) (c : RGB) : Image :=
  { width := w, height := h, pixel := fun _ _ => c }

/-- An all-black 160 x 90 frame (a fully degenerate capture). -/
def black160 : Image := constImage 160 90 (0, 0, 0)

/-- A resampler that is exact on constant images: resizing an all-black
frame yields an all-black thumbnail of the requested size, which is also
what LANCZOS resampling produces on a constant image. -/
def blackResize : Resize := fun _ w h => constImage w h (0, 0, 0)

/-- A concrete pipeline state whose previous run started at t = 10. -/
def pipeSt10 : PipeState :=
  { last_process_time := 10
    detector := detectorInit
    breakers := [("vision", breakerInit "vision" 3 15)] }

/-- Witness for C2 at a concrete pipeline state: previous run started at
t = 10, new request at t = 11, cooldown 3 seconds. -/
theorem c2_cooldown_witness :
    ((11 : ℚ) - 10 < 3)
    ∧ process_screenshot {} pipeSt10 black160 blackResize
        11 (fun _ b => ({ game_state := "in_game_laning" }, b))
      = ({ headline := "Processing previous screenshot - wait a moment"
           game_state := "cooldown" }, pipeSt10, false) :=
  ⟨by norm_num,
   c2_cooldown_rejects_without_side_effects _ _ _ _ _ _ (by norm_num [pipeSt10])⟩

/-! ## GameSession update operations (C5, C6, C7) -/

/-- The GameSession fields that update_from_tab never writes, bundled so
that "all other fields are unchanged" is a single equation. -/
def tabUntouched (s : GameSession) :=
  (s.game_id, s.start_time, s.blue_team, s.red_team, s.user_champion,
   s.user_role, s.user_team, s.lane_opponent, s.role_assignments,
   s.user_gold, s.user_level, s.enemy_levels, s.enemy_kda, s.deaths,
   s.objectives_taken, s.screenshots_analyzed, s.coaching_advice_given,
   s.original_build_plan, s.adjusted_build_plan, s.build_adjustments)

/-- An extraction carrying only the user_items key. -/
def tabItemsOnly : TabAnalysis := { user_items := some ["Sheen"] }

/-- Counterexample to C5 as stated: the extraction holds only the key
user_items (so the key user_items_history is absent from it), yet
update_from_tab changes the user_items_history field - the method appends
a timestamped snapshot whenever user_items is present. -/
theorem c5_counterexample_history_changes_without_its_key :
    tabKeys tabItemsOnly = ["user_items"]
    ∧ (update_from_tab sessionInit tabItemsOnly 5).user_items_history
        ≠ sessionInit.user_items_history := by
  constructor
  · rfl
  · simp [update_from_tab, tabItemsOnly, sessionInit]

/-- C5 (amended): update_from_tab overwrites only the fields whose keys are
present in the extraction (user_items, user_cs, user_kda overwritten;
enemy_items merged pointwise), leaves every field whose key is absent
unchanged, and leaves every other field unchanged except
user_items_history, to which it appends one timestamped snapshot exactly
when user_items is present. -/
theorem c5_update_from_tab_partial_merge (s : GameSession) (t : TabAnalysis) (now : ℚ) :
    (t.user_items = none →
      (update_from_tab s t now).user_items = s.user_items
        ∧ (update_from_tab s t now).user_items_history = s.user_items_history)
    ∧ (t.user_cs = none → (update_from_tab s t now).user_cs = s.user_cs)
    ∧ (t.user_kda = none → (update_from_tab s t now).user_kda = s.user_kda)
    ∧ (t.enemy_items = none → (update_from_tab s t now).enemy_items = s.enemy_items)
    ∧ (∀ its, t.user_items = some its →
        (update_from_tab s t now).user_items = its
          ∧ (update_from_tab s t now).user_items_history
              = s.user_items_history ++ [{ time := now, items := its }])
    ∧ tabUntouched (update_from_tab s t now) = tabUntouched s := by
  rcases t with ⟨ui, uc, uk, ue⟩
  cases ui <;> cases uc <;> cases uk <;> cases ue <;>
    simp [update_from_tab, tabUntouched]

/-- Witness for C5 at a concrete session and extraction carrying only the
user_cs key: the keyed fields with absent keys and the untouched bundle are
unchanged, and user_cs is overwritten. -/
theorem c5_partial_merge_witness :
    (({ user_cs := some 42 } : TabAnalysis).user_items = none
      ∧ ({ user_cs := some 42 } : TabAnalysis).user_kda = none
      ∧ ({ user_cs := some 42 } : TabAnalysis).enemy_items = none)
    ∧ (update_from_tab sessionInit { user_cs := some 42 } 1).user_items
        = sessionInit.user_items
    ∧ (update_from_tab sessionInit { user_cs := some 42 } 1).user_kda
        = sessionInit.user_kda
    ∧ (update_from_tab sessionInit { user_cs := some 42 } 1).enemy_items
        = sessionInit.enemy_items
    ∧ tabUntouched (update_from_tab sessionInit { user_cs := some 42 } 1)
        = tabUntouched sessionInit :=
  ⟨⟨rfl, rfl, rfl⟩,
   ((c5_update_from_tab_partial_merge sessionInit { user_cs := some 42 } 1).1 rfl).1,
   (c5_update_from_tab_partial_merge sessionInit { user_cs := some 42 } 1).2.2.1 rfl,
   (c5_update_from_tab_partial_merge sessionInit { user_cs := some 42 } 1).2.2.2.1 rfl,
   (c5_update_from_tab_partial_merge sessionInit { user_cs := some 42 } 1).2.2.2.2.2⟩

/-- dictOverride is idempotent: overriding twice with the same dict is the
same as overriding once. -/
theorem dictOverride_idem (f : String → Option (List String))
    (upd : List (String × List String)) :
    dictOverride (dictOverride f upd) upd = dictOverride f upd := by
  funext k
  unfold dictOverride
  cases upd.lookup k <;> simp

/-- Counterexample to C6 as stated: with an extraction carrying user_items,
the second identical update is not a no-op - it appends a second snapshot
to user_items_history. -/
theorem c6_counterexample_double_update_grows_history :
    update_from_tab (update_from_tab sessionInit tabItemsOnly 5) tabItemsOnly 5
      ≠ update_from_tab sessionInit tabItemsOnly 5 := by
  intro h
  have hlen := congrArg (fun s => s.user_items_history.length) h
  simp [update_from_tab, tabItemsOnly, sessionInit] at hlen

/-- C6 (amended): calling update_from_tab twice in a row with identical
input is a no-op on the second call provided the extraction does not carry
the user_items key (when it does, each call appends another snapshot to
user_items_history, as the counterexample shows). -/
theorem c6_update_from_tab_idempotent_without_items (s : GameSession)
    (t : TabAnalysis) (n1 n2 : ℚ) (h : t.user_items = none) :
    update_from_tab (update_from_tab s t n1) t n2 = update_from_tab s t n1 := by
  rcases t with ⟨ui, uc, uk, ue⟩
  cases ui with
  | some _ => cases h
  | none =>
    cases uc <;> cases uk <;> cases ue <;>
      simp [update_from_tab, dictOverride_idem]

/-- An extraction carrying user_cs and enemy_items but not user_items. -/
def tabCsEnemy : TabAnalysis :=
  { user_cs := some 42, enemy_items := some [("Darius", ["Thornmail"])] }

/-- Witness for C6 (amended) at a concrete session and extraction. -/
theorem c6_idempotent_witness :
    tabCsEnemy.user_items = none
    ∧ update_from_tab (update_from_tab sessionInit tabCsEnemy 1) tabCsEnemy 2
        = update_from_tab sessionInit tabCsEnemy 1 :=
  ⟨rfl, c6_update_from_tab_idempotent_without_items sessionInit tabCsEnemy 1 2 rfl⟩

/-- An empty death-screen extraction. -/
def deathA0 : DeathAnalysis := {}

/-- Repeated update_from_death calls from a fresh session (call n happens
at time n). -/
def iterDeath : Nat → GameSession
  | 0 => sessionInit
  | n + 1 => update_from_death (iterDeath n) deathA0 n

theorem iterDeath_deaths_length (n : Nat) : (iterDeath n).deaths.length = n := by
  induction n with
  | zero => rfl
  | succ k ih => simp [iterDeath, update_from_death, ih]

/-- Counterexample to C7 as stated: the stored deaths log is not bounded by
any fixed cap - after cap + 1 updates it has length cap + 1. -/
theorem c7_counterexample_deaths_unbounded :
    ¬ ∃ cap : Nat, ∀ n : Nat, (iterDeath n).deaths.length ≤ cap := by
  rintro ⟨cap, hc⟩
  have h := hc (cap + 1)
  rw [iterDeath_deaths_length] at h
  omega

/-- C7 (amended): update_from_death appends exactly one event record to the
deaths log and discards nothing - the previous log is kept as a prefix and
the length grows by one on every call, without any cap.  (Only the coaching
context exposes a bounded window, the last three entries.) -/
theorem c7_update_from_death_appends_without_cap (s : GameSession)
    (d : DeathAnalysis) (now : ℚ) :
    (update_from_death s d now).deaths
      = s.deaths ++ [{ time := now, game_time := d.game_time,
                       killed_by := d.killed_by,
                       damage_breakdown := d.damage_breakdown,
                       advice := d.advice }]
    ∧ (update_from_death s d now).deaths.length = s.deaths.length + 1 := by
  constructor
  · rfl
  · simp [update_from_death]

/-! ## Judge approval rule (C8) -/

/-- C8: FinalJudgeValidatorAgent.validate approves exactly when the schema
re-validation succeeded and at most 3 Fix entries were produced
(`approved = schema_valid and len(fixes) <= 3`), where `fixes_applied` and
`schema_valid` are the values returned in the JudgeOutput. -/
theorem c8_judge_approval_rule (inp : JudgeInput) (pydantic_ok : Bool) :
    (validate inp pydantic_ok).approved = true ↔
      ((validate inp pydantic_ok).schema_valid = true
        ∧ (validate inp pydantic_ok).fixes_applied.length ≤ 3) := by
  simp [validate]

/-! ## Evaluation lemmas on an all-black frame

These compute each signal of the detector on a constant black image (every
pixel (0,0,0)); they feed the concrete witnesses of the pipeline-level
claims and the temporal-context analysis. -/

theorem pixBright_black : pixBright (0, 0, 0) = 0 := by
  norm_num [pixBright]

theorem pixSat_black : pixSat (0, 0, 0) = 0 := by
  norm_num [pixSat]

theorem constImage_width (w h : Nat) (c : RGB) : (constImage w h c).width = w := rfl

theorem constImage_height (w h : Nat) (c : RGB) : (constImage w h c).height = h := rfl

theorem constImage_pixel (w h : Nat) (c : RGB) :
    (constImage w h c).pixel = fun _ _ => c := rfl

theorem eq_of_mem_getdata_const {w h : Nat} {c x : RGB}
    (hx : x ∈ getdata (constImage w h c)) : x = c := by
  unfold getdata at hx
  rcases List.mem_flatMap.mp hx with ⟨y, -, hy⟩
  rcases List.mem_map.mp hy with ⟨x', -, rfl⟩
  rfl

theorem getdata_const_length (w h : Nat) (c : RGB) :
    (getdata (constImage w h c)).length = h * w := by
  unfold getdata
  simp only [constImage_width, constImage_height]
  rw [List.length_flatMap]
  have : (List.range h).map (List.length ∘ fun y =>
      (List.range w).map fun x => (constImage w h c).pixel x y)
      = List.replicate h w := by
    rw [show (List.length ∘ fun y => (List.range w).map fun x => (constImage w h c).pixel x y)
        = fun _ => w by funext y; simp]
    rw [show (fun (_ : Nat) => w) = Function.const Nat w from rfl]
    rw [List.map_const, List.length_range]
  rw [this, List.sum_replicate, smul_eq_mul]

theorem pyRange_length (a b s : Nat) :
    (pyRange a b s).length = (b - a + s - 1) / s := by
  simp [pyRange]

theorem gridPts_length (x1 x2 y1 y2 sx sy : Nat) :
    (gridPts x1 x2 y1 y2 sx sy).length
      = (pyRange y1 y2 sy).length * (pyRange x1 x2 sx).length := by
  unfold gridPts
  rw [List.length_flatMap]
  have : (pyRange y1 y2 sy).map (List.length ∘ fun y =>
      (pyRange x1 x2 sx).map fun x => (x, y))
      = List.replicate (pyRange y1 y2 sy).length (pyRange x1 x2 sx).length := by
    rw [show (List.length ∘ fun y => (pyRange x1 x2 sx).map fun x => (x, y))
        = fun _ => (pyRange x1 x2 sx).length by funext y; simp]
    rw [show (fun (_ : Nat) => (pyRange x1 x2 sx).length)
        = Function.const Nat (pyRange x1 x2 sx).length from rfl]
    rw [List.map_const]
  rw [this, List.sum_replicate, smul_eq_mul]

theorem sum_map_bright_black (l : List (Nat × Nat)) :
    (l.map (fun p => pixBright ((fun _ _ => ((0, 0, 0) : RGB)) p.1 p.2))).sum = 0 := by
  apply List.sum_eq_zero
  intro x hx
  rcases List.mem_map.mp hx with ⟨p, -, rfl⟩
  exact pixBright_black

theorem sum_map_sat_black (l : List (Nat × Nat)) :
    (l.map (fun p => pixSat ((fun _ _ => ((0, 0, 0) : RGB)) p.1 p.2))).sum = 0 := by
  apply List.sum_eq_zero
  intro x hx
  rcases List.mem_map.mp hx with ⟨p, -, rfl⟩
  exact pixSat_black

theorem region_avg_brightness_black (x1 y1 x2 y2 tw th : Nat) :
    region_avg_brightness (fun _ _ => ((0, 0, 0) : RGB)) x1 y1 x2 y2 tw th = 0 := by
  unfold region_avg_brightness listAvg
  split
  · rfl
  · rw [sum_map_bright_black, zero_div]

theorem region_avg_saturation_black (x1 y1 x2 y2 tw th : Nat) :
    region_avg_saturation (fun _ _ => ((0, 0, 0) : RGB)) x1 y1 x2 y2 tw th = 0 := by
  unfold region_avg_saturation listAvg
  split
  · rfl
  · rw [sum_map_sat_black, zero_div]

theorem region_dark_frac_black (x1 y1 x2 y2 tw th : Nat) :
    region_dark_frac (fun _ _ => ((0, 0, 0) : RGB)) x1 y1 x2 y2 tw th
      = if (regionPts x1 y1 x2 y2 tw th 2).length = 0 then 0 else 1 := by
  unfold region_dark_frac
  dsimp only
  rw [List.countP_eq_length.mpr (fun a _ => by decide)]
  split
  · rfl
  · rename_i hne
    rw [div_self (by exact_mod_cast hne)]

theorem region_warm_frac_black (x1 y1 x2 y2 tw th : Nat) :
    region_warm_frac (fun _ _ => ((0, 0, 0) : RGB)) x1 y1 x2 y2 tw th = 0 := by
  unfold region_warm_frac
  dsimp only
  rw [List.countP_eq_zero.mpr (fun a _ => by decide)]
  split
  · rfl
  · norm_num

theorem region_color_frac_black (x1 y1 x2 y2 tw th : Nat) (color : ColorName) :
    region_color_frac (fun _ _ => ((0, 0, 0) : RGB)) x1 y1 x2 y2 tw th color = 0 := by
  unfold region_color_frac
  dsimp only
  rw [List.countP_eq_zero.mpr ?hp]
  case hp =>
    intro a _
    cases color <;> decide
  split
  · rfl
  · norm_num

theorem bandRow_black_eq_zero (tw y : Nat) (r : ℚ)
    (h : bandRow (fun _ _ => ((0, 0, 0) : RGB)) tw y = some r) : r = 0 := by
  unfold bandRow at h
  dsimp only at h
  split at h
  · cases h
  · rw [show ((pyRange (ratFloorNat ((tw : ℚ) * (3/20)))
        (ratFloorNat ((tw : ℚ) * (17/20))) 4).map
        (fun x => pixBright ((fun _ _ => ((0, 0, 0) : RGB)) x y))).sum = 0 from
      List.sum_eq_zero (fun x hx => by
        rcases List.mem_map.mp hx with ⟨p, -, rfl⟩
        exact pixBright_black), zero_div] at h
    exact (Option.some_inj.mp h).symm

theorem check_horizontal_banding_black (tw th y_start y_end bands : Nat) :
    check_horizontal_banding (fun _ _ => ((0, 0, 0) : RGB)) tw th y_start y_end bands
      = 0 := by
  unfold check_horizontal_banding
  dsimp only
  split
  · rfl
  · have hrows : ∀ r ∈ (pyRange y_start y_end 2).filterMap
        (bandRow (fun _ _ => ((0, 0, 0) : RGB)) tw), r = 0 := by
      intro r hr
      rcases List.mem_filterMap.mp hr with ⟨y, -, hy⟩
      exact bandRow_black_eq_zero tw y r hy
    rw [List.countP_eq_zero.mpr ?hz]
    case hz =>
      intro p hp
      have h1 := hrows p.1 (List.of_mem_zip hp).1
      have h2 := hrows p.2 (List.mem_of_mem_tail (List.of_mem_zip hp).2)
      simp only [decide_eq_true_eq, not_lt]
      rw [h1, h2]
      norm_num
    norm_num

theorem sum_sq_dev_black (l : List (Nat × Nat)) :
    ((l.map (fun p => pixBright ((fun _ _ => ((0, 0, 0) : RGB)) p.1 p.2))).map
      (fun b => (b - 0) ^ 2)).sum = 0 := by
  apply List.sum_eq_zero
  intro x hx
  rcases List.mem_map.mp hx with ⟨b, hb, rfl⟩
  rcases List.mem_map.mp hb with ⟨p, -, rfl⟩
  rw [pixBright_black]
  norm_num

theorem gridSlotScore_black (tw th : Nat) (rowY : ℚ × ℚ) (col : Nat) :
    gridSlotScore (fun _ _ => ((0, 0, 0) : RGB)) tw th rowY col = none
    ∨ gridSlotScore (fun _ _ => ((0, 0, 0) : RGB)) tw th rowY col = some (1/10) := by
  unfold gridSlotScore
  dsimp only
  split
  · exact Or.inl rfl
  · right
    rw [sum_map_bright_black, zero_div, sum_sq_dev_black, zero_div]
    norm_num

theorem check_5x2_grid_black (tw th : Nat) :
    check_5x2_grid (fun _ _ => ((0, 0, 0) : RGB)) tw th = 0 := by
  unfold check_5x2_grid
  dsimp only
  rw [List.countP_eq_zero.mpr ?hz]
  case hz =>
    intro s hs
    rcases List.mem_flatMap.mp hs with ⟨rowY, -, hrow⟩
    rcases List.mem_filterMap.mp hrow with ⟨col, -, hcol⟩
    rcases gridSlotScore_black tw th rowY col with h | h
    · rw [h] at hcol
      cases hcol
    · rw [h] at hcol
      rw [← Option.some_inj.mp hcol]
      norm_num
  norm_num

theorem check_shop_open_black :
    check_shop_open black160 blackResize =
      { state := GameState.SHOP_OPEN, confidence := 0
        coaching_action := "buy_recommendation" } := by
  unfold check_shop_open
  simp only [blackResize, black160, constImage_pixel]
  simp only [region_avg_brightness_black, region_warm_frac_black,
    region_color_frac_black]
  simp only [GameStateResult.mk.injEq]
  norm_num

theorem check_loading_screen_black :
    check_loading_screen black160 blackResize =
      { state := GameState.LOADING_SCREEN, confidence := 1/4
        phase := some GamePhase.PRE_GAME
        coaching_action := "full_pregame_plan" } := by
  unfold check_loading_screen
  simp only [blackResize, black160, constImage_pixel, constImage_width,
    constImage_height]
  have hdark : (getdata (constImage 160 90 (0, 0, 0))).countP
      (fun c => decide (c.1 < 50 ∧ c.2.1 < 50 ∧ c.2.2 < 50))
      = (getdata (constImage 160 90 (0, 0, 0))).length := by
    apply List.countP_eq_length.mpr
    intro a ha
    rw [eq_of_mem_getdata_const ha]
    decide
  simp only [hdark, getdata_const_length, check_5x2_grid_black,
    region_avg_brightness_black]
  simp only [GameStateResult.mk.injEq]
  norm_num

theorem tab_region_eval : get_pixel_region TAB_OVERLAY 320 180 = (32, 9, 288, 153) := by
  norm_num [get_pixel_region, TAB_OVERLAY, ratFloorNat]
  exact ⟨rfl, rfl, rfl, rfl⟩

theorem check_tab_scoreboard_black :
    check_tab_scoreboard black160 blackResize =
      { state := GameState.TAB_SCOREBOARD, confidence := 1/4
        coaching_action := "item_check_and_build_adjust"
        extracted_has_minimap := some false } := by
  unfold check_tab_scoreboard
  simp only [blackResize, black160, constImage_pixel]
  simp only [region_avg_brightness_black, region_dark_frac_black,
    check_horizontal_banding_black, tab_region_eval]
  simp only [GameStateResult.mk.injEq]
  norm_num [regionPts, gridPts_length, pyRange_length, Nat.min_def, Nat.max_def]

theorem mem_map_bright_black (w h : Nat) :
    ∀ x ∈ (getdata (constImage w h (0, 0, 0))).map pixBright, x = 0 := by
  intro x hx
  rcases List.mem_map.mp hx with ⟨c, hc, rfl⟩
  rw [eq_of_mem_getdata_const hc]
  exact pixBright_black

theorem check_death_screen_black (d : DetectorState)
    (h1 : d.current_state ≠ GameState.IN_GAME_LANING)
    (h2 : d.current_state ≠ GameState.IN_GAME_TEAMFIGHT) :
    check_death_screen d black160 blackResize =
      { state := GameState.DEATH_SCREEN, confidence := 2/5
        coaching_action := "death_review_and_recovery" } := by
  unfold check_death_screen
  simp only [blackResize, black160]
  have hsat : ((getdata (constImage 160 90 (0, 0, 0))).map pixSat).sum = 0 := by
    apply List.sum_eq_zero
    intro x hx
    rcases List.mem_map.mp hx with ⟨c, hc, rfl⟩
    rw [eq_of_mem_getdata_const hc]
    exact pixSat_black
  have hgray : (getdata (constImage 160 90 (0, 0, 0))).countP (fun c => decide
      (((c.1 : ℤ) - (c.2.1 : ℤ)).natAbs < 30 ∧ ((c.2.1 : ℤ) - (c.2.2 : ℤ)).natAbs < 30
        ∧ ((c.1 : ℤ) - (c.2.2 : ℤ)).natAbs < 30 ∧ 30 < c.1 ∧ c.1 < 180)) = 0 := by
    apply List.countP_eq_zero.mpr
    intro a ha
    rw [eq_of_mem_getdata_const ha]
    decide
  have hbright : ((getdata (constImage 160 90 (0, 0, 0))).map pixBright).sum = 0 :=
    List.sum_eq_zero (mem_map_bright_black 160 90)
  have hsq : (((getdata (constImage 160 90 (0, 0, 0))).map pixBright).map
      (fun b => (b - 0) ^ 2)).sum = 0 := by
    apply List.sum_eq_zero
    intro x hx
    rcases List.mem_map.mp hx with ⟨b, hb, rfl⟩
    rw [mem_map_bright_black 160 90 b hb]
    norm_num
  simp only [hsat, hgray, hbright, zero_div]
  simp only [hsq, zero_div]
  rw [if_neg (not_or.mpr ⟨h1, h2⟩)]
  simp only [GameStateResult.mk.injEq]
  norm_num

theorem check_post_game_black :
    check_post_game black160 blackResize =
      { state := GameState.POST_GAME_STATS, confidence := 1/10
        phase := some GamePhase.POST_GAME
        coaching_action := "game_review" } := by
  unfold check_post_game
  simp only [blackResize, black160, constImage_pixel]
  have hvic : (getdata (constImage 160 90 (0, 0, 0))).countP (fun c => decide
      ((150 < c.2.2 ∧ c.1 < c.2.2) ∨ (180 < c.1 ∧ 150 < c.2.1 ∧ c.2.2 < 100))) = 0 := by
    apply List.countP_eq_zero.mpr
    intro a ha
    rw [eq_of_mem_getdata_const ha]
    decide
  simp only [hvic, region_avg_brightness_black, check_horizontal_banding_black]
  simp only [GameStateResult.mk.injEq]
  norm_num

theorem check_in_game_black (d : DetectorState) (now : ℚ) :
    check_in_game d black160 blackResize now =
      ({ state := GameState.IN_GAME_LANING, confidence := 0
         phase := some (estimate_game_phase d.game_start_time now).1
         coaching_action := "live_coaching" },
       (estimate_game_phase d.game_start_time now).2) := by
  unfold check_in_game
  simp only [blackResize, black160, constImage_pixel]
  simp only [region_avg_brightness_black, region_avg_saturation_black,
    region_color_frac_black]
  simp only [Prod.mk.injEq, GameStateResult.mk.injEq]
  norm_num

theorem detect_black_fresh (now : ℚ) :
    detect detectorInit black160 blackResize now =
      ({ state := GameState.DEATH_SCREEN, confidence := 2/5
         coaching_action := "death_review_and_recovery"
         previous_state := some GameState.NOT_LOL },
       { state_history := [(now, GameState.DEATH_SCREEN)]
         game_start_time := some now
         current_state := GameState.DEATH_SCREEN
         last_detection_time := now }) := by
  unfold detect
  rw [check_loading_screen_black, check_tab_scoreboard_black, check_shop_open_black,
      check_death_screen_black detectorInit (by decide) (by decide),
      check_post_game_black, check_in_game_black]
  simp only [detectorInit, estimate_game_phase, pickBest, List.foldl,
    apply_temporal_context, determine_coaching_action]
  norm_num
  simp

theorem detect_black_repeat (pre : List (ℚ × GameState)) (tp : ℚ)
    (g : Option ℚ) (cur : GameState) (lt now : ℚ)
    (h1 : cur ≠ GameState.IN_GAME_LANING) (h2 : cur ≠ GameState.IN_GAME_TEAMFIGHT)
    (hlen : pre.length + 2 ≤ 100) :
    detect { state_history := pre ++ [(tp, GameState.DEATH_SCREEN)]
             game_start_time := g, current_state := cur, last_detection_time := lt }
        black160 blackResize now =
      ({ state := GameState.DEATH_SCREEN, confidence := 2/5
         coaching_action := "death_review_and_recovery"
         previous_state := some cur
         state_duration_seconds := now - tp },
       { state_history := (pre ++ [(tp, GameState.DEATH_SCREEN)])
            ++ [(now, GameState.DEATH_SCREEN)]
         game_start_time := (estimate_game_phase g now).2
         current_state := GameState.DEATH_SCREEN
         last_detection_time := now }) := by
  unfold detect
  rw [check_loading_screen_black, check_tab_scoreboard_black, check_shop_open_black,
      check_death_screen_black _ h1 h2, check_post_game_black, check_in_game_black]
  simp only [pickBest, List.foldl, apply_temporal_context, determine_coaching_action]
  norm_num
  have hgl : (pre ++ [(tp, GameState.DEATH_SCREEN)]).getLast?
      = some (tp, GameState.DEATH_SCREEN) := by simp
  simp [hgl, List.length_append]
  omega

/-! ## C4: below-floor detections are reported as not_lol results -/

/-- C4: whenever the cooldown gate passes and the classifier's best
hypothesis scores below the minimum-confidence floor
(`game_state_confidence`), process_screenshot returns the "not_lol"
(unrecognized) result rather than that hypothesis - a returned value, not
a thrown error - after having invoked the classifier. -/
theorem c4_below_floor_reports_not_lol (cfg : LivePipelineConfig) (st : PipeState)
    (img : Image) (rs : Resize) (now : ℚ)
    (coach : GameStateResult → List (String × AgentCircuitBreaker) →
      CoachingResult × List (String × AgentCircuitBreaker))
    (h1 : ¬ (now - st.last_process_time < cfg.cooldown_between_shots))
    (h2 : (detect st.detector img rs now).1.confidence < cfg.game_state_confidence) :
    (process_screenshot cfg st img rs now coach).1.game_state = "not_lol"
    ∧ (process_screenshot cfg st img rs now coach).2.2 = true := by
  unfold process_screenshot
  rw [if_neg h1]
  dsimp only
  rw [if_pos (Or.inr h2)]
  exact ⟨rfl, rfl⟩

/-- A freshly initialized pipeline state with the five per-agent breakers
of the loading-screen swarm. -/
def pipeInit : PipeState :=
  { last_process_time := 0
    detector := detectorInit
    breakers := [("vision", breakerInit "vision" 3 15),
                 ("build", breakerInit "build" 3 20),
                 ("laning", breakerInit "laning" 3 20),
                 ("teamfight", breakerInit "teamfight" 3 20),
                 ("macro", breakerInit "macro" 3 15)] }

/-- Witness for C4 at a concrete degenerate input: an all-black 160 x 90
frame on a fresh pipeline at t = 100 scores 2/5 (the death-screen
hypothesis wins with a below-floor score; the signal scores are not all
zero, but the floor 13/20 still demotes it), and the pipeline reports
game_state "not_lol". -/
theorem c4_below_floor_witness :
    (¬ ((100 : ℚ) - pipeInit.last_process_time
        < ({} : LivePipelineConfig).cooldown_between_shots))
    ∧ (detect pipeInit.detector black160 blackResize 100).1.confidence
        < ({} : LivePipelineConfig).game_state_confidence
    ∧ (process_screenshot {} pipeInit black160 blackResize 100
        (fun _ b => ({ game_state := "in_game_laning" }, b))).1.game_state
        = "not_lol" :=
  ⟨by norm_num [pipeInit],
   by
    rw [show pipeInit.detector = detectorInit from rfl, detect_black_fresh]
    norm_num,
   (c4_below_floor_reports_not_lol {} pipeInit black160 blackResize 100
      (fun _ b => ({ game_state := "in_game_laning" }, b))
      (by norm_num [pipeInit])
      (by
        rw [show pipeInit.detector = detectorInit from rfl, detect_black_fresh]
        norm_num)).1⟩

/-! ## C9: state duration is the gap since the previous call, not an
accumulated duration -/

/-- C9 (divergence exhibit): three detect calls on the same all-black frame
at times 0, 10 and 11 all resolve to the death-screen state, yet the third
call reports state_duration_seconds = 1 (the gap to the previous call at
t = 10) while the second reported 10 - the duration shrinks even though
the state persisted for 11 seconds.  The source's `_apply_temporal_context`
reads `last_change` from the previous detection's timestamp rather than
from the time the state was entered, so the claimed non-decreasing /
accumulating behaviour fails. -/
theorem c9_state_duration_not_accumulating :
    (detect detectorInit black160 blackResize 0).1.state_duration_seconds = 0
    ∧ (detect (detect detectorInit black160 blackResize 0).2
        black160 blackResize 10).1.state = GameState.DEATH_SCREEN
    ∧ (detect (detect (detect detectorInit black160 blackResize 0).2
        black160 blackResize 10).2 black160 blackResize 11).1.state
        = GameState.DEATH_SCREEN
    ∧ (detect (detect detectorInit black160 blackResize 0).2
        black160 blackResize 10).1.state_duration_seconds = 10
    ∧ (detect (detect (detect detectorInit black160 blackResize 0).2
        black160 blackResize 10).2 black160 blackResize 11).1.state_duration_seconds = 1
    ∧ (detect (detect (detect detectorInit black160 blackResize 0).2
        black160 blackResize 10).2 black160 blackResize 11).1.state_duration_seconds
      < (detect (detect detectorInit black160 blackResize 0).2
        black160 blackResize 10).1.state_duration_seconds := by
  have e1 := detect_black_fresh 0
  have e2 := detect_black_repeat [] 0 (some 0) GameState.DEATH_SCREEN 0 10
    (by decide) (by decide) (by simp)
  have e3 := detect_black_repeat [(0, GameState.DEATH_SCREEN)] 10 (some 0)
    GameState.DEATH_SCREEN 10 11 (by decide) (by decide) (by simp)
  simp only [List.nil_append, List.cons_append, estimate_game_phase] at e2 e3
  rw [e1]
  dsimp only
  rw [e2]
  dsimp only
  rw [e3]
  norm_num
